import Mathlib

/-!
Verification development for the hasura-profiler connection/query store.

The repository contains three revisions of the store:
* a multi-profile store (serverList + selectedServerId) in
  src/lib/stores/hasura.svelte.ts, together with the standalone
  executeGraphQL / executeSQL helpers;
* a single-connection revision (server/adminPassword/isConnected/isLoading/error)
  in the same file, modelled below in namespace SingleV2;
* an earlier single-connection revision (part_001) with a guarded
  updateConnection and a connectionStatus state machine, modelled in
  namespace SingleV1.

Network and JSON behaviour is embedded shallowly: the fetch environment is a
function from the issued HTTP request to an outcome (network rejection,
body-parse rejection, or an HTTP response carrying a JSON body), and the
errorBoundary combinator from @stayradiated/error-boundary is modelled as a
total function from a possibly-throwing computation to a tagged result.
-/

/-- A JSON value, as produced by response.json(). Numbers are modelled as
integers, which suffices for the behaviour verified here. -/
inductive Json where
  | null : Json
  | bool (b : Bool) : Json
  | num (n : Int) : Json
  | str (s : String) : Json
  | arr (xs : List Json) : Json
  | obj (fields : List (String × Json)) : Json

/-- JavaScript property access j.k for a receiver that is never null at its
use site, and access protected by optional chaining (which evaluates to
undefined on a null receiver): a field lookup on objects, undefined (none) on
every other value. The unprotected access on a possibly-null receiver, which
throws, is modelled where it occurs, in gqlHasErrors. -/
def jsGet (j : Json) (k : String) : Option Json :=
  match j with
  | .obj fields => (fields.find? (fun f => f.1 = k)).map (fun f => f.2)
  | _ => none

/-- JavaScript truthiness of a parsed JSON value. -/
def jsTruthy (j : Json) : Bool :=
  match j with
  | .null => false
  | .bool b => b
  | .num n => n != 0
  | .str s => s ≠ ""
  | .arr _ => true
  | .obj _ => true

/-- Truthiness of v.length for a parsed JSON value v, as evaluated by the
expression data.errors?.length: arrays and strings expose their length,
objects may carry a length field, everything else gives undefined (falsy). -/
def jsLengthTruthy (j : Json) : Bool :=
  match j with
  | .arr xs => xs.length ≠ 0
  | .str s => s.length ≠ 0
  | .obj fields =>
      match (fields.find? (fun f => f.1 = "length")).map (fun f => f.2) with
      | some v => jsTruthy v
      | none => false
  | _ => false

/-- JavaScript indexing v[0]: head of an array, first character of a string,
field "0" of an object, undefined otherwise. -/
def jsIndex0 (j : Json) : Option Json :=
  match j with
  | .arr xs => xs.head?
  | .str s => if s.isEmpty then none else some (.str (String.singleton s.front))
  | .obj fields => (fields.find? (fun f => f.1 = "0")).map (fun f => f.2)
  | _ => none

mutual

/-- JavaScript String(v) coercion for a parsed JSON value, as applied by the
Error constructor to a non-string message. -/
def jsToString : Json → String
  | .null => "null"
  | .bool true => "true"
  | .bool false => "false"
  | .num n => toString n
  | .str s => s
  | .arr xs => jsArrToString xs
  | .obj _ => "[object Object]"

/-- JavaScript Array.prototype.toString: elements joined by commas. -/
def jsArrToString : List Json → String
  | [] => ""
  | [x] => jsToString x
  | x :: y :: rest => jsToString x ++ "," ++ jsArrToString (y :: rest)

end

/-- A JavaScript Error value: its message, and whether it is a TypeError
(the class used by the store for schema-validation failures). -/
structure Err where
  message : String
  isTypeError : Bool
deriving DecidableEq, Repr

/-- The tagged result of a store query operation: either a payload or an
Error value, mirroring the TypeScript union T | Error. -/
inductive QResult (α : Type) where
  | ok (payload : α) : QResult α
  | err (e : Err) : QResult α

/-- The errorBoundary combinator: runs a computation that may throw
(Except.error models a thrown exception) and whose normal return value may
itself be an Error value, and yields a tagged result, never a throw. -/
def errorBoundary {α : Type} (x : Except Err (QResult α)) : QResult α :=
  match x with
  | .error e => .err e
  | .ok r => r

/-- Behaviour of the environment for one fetch call: the fetch promise may
reject (network fault), response.json() may reject (malformed payload), or a
response arrives with an ok flag and a parsed JSON body. -/
inductive FetchOutcome where
  | reject (e : Err) : FetchOutcome
  | jsonReject (ok : Bool) (e : Err) : FetchOutcome
  | response (ok : Bool) (body : Json) : FetchOutcome

/-- The HTTP request issued by a query operation. -/
structure HttpRequest where
  url : String
  method : String
  headers : List (String × String)
  body : Json

/-- The network environment: what outcome each issued request produces. -/
def Env : Type := HttpRequest → FetchOutcome

/-- A connection record of the multi-profile store: id, display name,
endpoint URL and admin password. -/
structure Server where
  id : String
  name : String
  url : String
  password : String
deriving DecidableEq, Repr

/-- Options accepted by executeSQL; allowMutations defaults to false when the
field is absent. -/
structure ExecuteSQLOptions where
  allowMutations : Option Bool
deriving DecidableEq, Repr

/-- The default options value for an executeSQL call that passes none. -/
def ExecuteSQLOptions.default : ExecuteSQLOptions := ⟨none⟩

/-- Effective allowMutations after destructuring with its default. -/
def ExecuteSQLOptions.allow (o : ExecuteSQLOptions) : Bool :=
  o.allowMutations.getD false

/-- The request issued by the standalone executeGraphQL helper: a POST to
server.url/v1/graphql with the admin-secret header and a body carrying the
query text and the variables mapping. -/
def graphQLRequest (server : Server) (query : String) (vars : Json) : HttpRequest :=
  { url := server.url ++ "/v1/graphql"
  , method := "POST"
  , headers := [("Content-Type", "application/json"),
                ("x-hasura-admin-secret", server.password)]
  , body := .obj [("query", .str query), ("variables", vars)] }

/-- The condition data.errors?.length evaluated on the parsed response body.
The data.errors access itself is unprotected, so it throws a TypeError when
the parsed body is null; only the subsequent length access is guarded by
optional chaining. -/
def gqlHasErrors (body : Json) : Except Err Bool :=
  match body with
  | .null => .error ⟨"Cannot read properties of null (reading errors)", true⟩
  | _ => .ok (match jsGet body "errors" with
      | some e => jsLengthTruthy e
      | none => false)

/-- The message of the Error thrown on the gateway-error path:
data.errors[0]?.message with the falsy fallback to a generic message. This
path is reached only when errors has a truthy length, so the errors receiver
is never null here, and the message access is protected by optional
chaining, matching the jsGet model. -/
def gqlErrorMessage (body : Json) : String :=
  match ((jsGet body "errors").bind jsIndex0).bind (fun e => jsGet e "message") with
  | some v => if jsTruthy v then jsToString v else "GraphQL query failed"
  | none => "GraphQL query failed"

/-- The async body wrapped by errorBoundary inside executeGraphQL. Except.error
models a thrown exception: a fetch rejection, a response.json() rejection, the
TypeError thrown by the data.errors access on a null body, or the Error
deliberately thrown when the body carries a non-empty errors array. On the
non-error path the whole parsed body object is returned as payload. -/
def executeGraphQLBody (server : Server) (query : String) (vars : Json)
    (env : Env) : Except Err (QResult Json) :=
  match env (graphQLRequest server query vars) with
  | .reject e => .error e
  | .jsonReject _ e => .error e
  | .response _ body =>
      match gqlHasErrors body with
      | .error e => .error e
      | .ok true => .error ⟨gqlErrorMessage body, false⟩
      | .ok false => .ok (.ok body)

/-- The standalone executeGraphQL helper: its body run through errorBoundary. -/
def executeGraphQL (server : Server) (query : String) (vars : Json)
    (env : Env) : QResult Json :=
  errorBoundary (executeGraphQLBody server query vars env)

/-- The successful decode of the Hasura SQL error schema: error, path and
code as strings (the optional internal block is validated separately). -/
structure HasuraQueryError where
  error : String
  path : String
  code : String
deriving DecidableEq, Repr

/-- Validation of the nested internal.error diagnostic block of the SQL error
schema: description and hint are string or null, the rest are strings. -/
def validInternalError (j : Json) : Bool :=
  match jsGet j "description", jsGet j "exec_status", jsGet j "hint",
        jsGet j "message", jsGet j "status_code" with
  | some d, some (.str _), some h, some (.str _), some (.str _) =>
      (match d with | .str _ => true | .null => true | _ => false) &&
      (match h with | .str _ => true | .null => true | _ => false)
  | _, _, _, _, _ => false

/-- Validation of the optional internal block of the SQL error schema:
arguments is an array, error the diagnostic block, prepared a boolean and
statement a string. -/
def validInternal (j : Json) : Bool :=
  match jsGet j "arguments", jsGet j "error", jsGet j "prepared", jsGet j "statement" with
  | some (.arr _), some e, some (.bool _), some (.str _) => validInternalError e
  | _, _, _, _ => false

/-- Decode of the strict SQL error schema (parseHasuraQueryError): error, path
and code must be strings, and the internal block, when present, must validate;
undeclared keys are ignored. A failure carries a schema-violation summary. -/
def decodeHasuraQueryError (j : Json) : Except String HasuraQueryError :=
  match j with
  | .obj _ =>
      match jsGet j "error", jsGet j "path", jsGet j "code" with
      | some (.str e), some (.str p), some (.str c) =>
          match jsGet j "internal" with
          | some i => if validInternal i then .ok ⟨e, p, c⟩
                      else .error "internal must be a valid diagnostic block"
          | none => .ok ⟨e, p, c⟩
      | _, _, _ => .error "error, path and code must be strings"
  | _ => .error "must be an object"

/-- Row extraction for the SQL success schema: every element of result must
itself be an array. -/
def asRows : List Json → Option (List (List Json))
  | [] => some []
  | .arr r :: rest => (asRows rest).map (fun rs => r :: rs)
  | _ :: _ => none

/-- The successful decode of the Hasura SQL success schema: the literal
result_type and the row tuples, kept verbatim. -/
structure HasuraQueryResult where
  result_type : String
  result : List (List Json)

/-- Decode of the strict SQL success schema (parseHasuraQueryResult):
result_type must be the literal TuplesOk and result a sequence of row tuples;
undeclared keys are ignored. A failure carries a schema-violation summary. -/
def decodeHasuraQueryResult (j : Json) : Except String HasuraQueryResult :=
  match j with
  | .obj _ =>
      match jsGet j "result_type", jsGet j "result" with
      | some (.str "TuplesOk"), some (.arr rows) =>
          match asRows rows with
          | some rs => .ok ⟨"TuplesOk", rs⟩
          | none => .error "result must be an array of arrays"
      | _, _ => .error "result_type must be TuplesOk and result an array of arrays"
  | _ => .error "must be an object"

/-- The JSON body of the SQL request issued by executeSQL in both revisions of
hasura.svelte.ts: type run_sql, with read_only the negation of allowMutations. -/
def sqlRequestBody (sql : String) (options : ExecuteSQLOptions) : Json :=
  .obj [("type", .str "run_sql"),
        ("args", .obj [("source", .str "default"),
                       ("sql", .str sql),
                       ("cascade", .bool false),
                       ("read_only", .bool (!options.allow))])]

/-- The request issued by the standalone executeSQL helper: a POST to
server.url/v2/query with the admin-secret header and the run_sql body. -/
def sqlRequest (server : Server) (sql : String) (options : ExecuteSQLOptions) : HttpRequest :=
  { url := server.url ++ "/v2/query"
  , method := "POST"
  , headers := [("Content-Type", "application/json"),
                ("x-hasura-admin-secret", server.password)]
  , body := sqlRequestBody sql options }

/-- Processing of one fetch outcome by the async body of executeSQL, shared by
every revision: rejections are thrown; on a non-ok response the error schema
is decoded (a schema failure is a returned TypeError, a decoded body a
returned Error carrying its error field with the falsy fallback); on an ok
response the success schema is decoded (schema failure a returned TypeError,
success the decoded result returned verbatim). -/
def sqlPipeline (outcome : FetchOutcome) : Except Err (QResult HasuraQueryResult) :=
  match outcome with
  | .reject e => .error e
  | .jsonReject _ e => .error e
  | .response ok body =>
      if ok then
        match decodeHasuraQueryResult body with
        | .error s => .ok (.err ⟨s, true⟩)
        | .ok r => .ok (.ok r)
      else
        match decodeHasuraQueryError body with
        | .error s => .ok (.err ⟨s, true⟩)
        | .ok eb => .ok (.err ⟨if eb.error = "" then "SQL query failed" else eb.error, false⟩)

/-- The standalone executeSQL helper: issues the run_sql request and runs the
shared pipeline through errorBoundary. -/
def executeSQL (server : Server) (sql : String) (options : ExecuteSQLOptions)
    (env : Env) : QResult HasuraQueryResult :=
  errorBoundary (sqlPipeline (env (sqlRequest server sql options)))

/-- The connection status state machine of the multi-profile store and of the
part_001 revision: idle, loading, ready, or error carrying the fault. -/
inductive HasuraConnectionStatus where
  | idle : HasuraConnectionStatus
  | loading : HasuraConnectionStatus
  | ready : HasuraConnectionStatus
  | error (e : Err) : HasuraConnectionStatus
deriving DecidableEq, Repr

/-- The reactive state of the multi-profile store: the ordered server list,
the selection pointer and the connection status. -/
structure MultiStoreState where
  serverList : List Server
  selectedServerId : Option String
  connectionStatus : HasuraConnectionStatus
deriving DecidableEq, Repr

/-- The getSelectedServer helper: undefined when the selection pointer is
unset or the empty string (both falsy), otherwise the first record in the
list whose id equals the pointer. -/
def getSelectedServer (st : MultiStoreState) : Option Server :=
  match st.selectedServerId with
  | none => none
  | some id => if id = "" then none else st.serverList.find? (fun s => s.id = id)

/-- The addServer operation: appends the new record built from the freshly
generated id, auto-selects it when the resulting list has exactly one record,
and returns the id. -/
def addServer (st : MultiStoreState) (name url password freshId : String) :
    String × MultiStoreState :=
  let newServer : Server := ⟨freshId, name, url, password⟩
  let serverList := st.serverList ++ [newServer]
  let selectedServerId :=
    if serverList.length = 1 then some freshId else st.selectedServerId
  (freshId, { st with serverList := serverList, selectedServerId := selectedServerId })

/-- The updateServer operation: rewrites the fields of every record whose id
matches, and resets the connection status when the updated id is the
selected one. -/
def updateServer (st : MultiStoreState) (id name url password : String) : MultiStoreState :=
  let serverList := st.serverList.map (fun s =>
    if s.id = id then { s with name := name, url := url, password := password } else s)
  if st.selectedServerId = some id then
    { st with serverList := serverList, connectionStatus := .idle }
  else
    { st with serverList := serverList }

/-- The removeServer operation: filters the record out; when the removed id
was the selected one, selection moves to the first remaining record (or is
cleared) and the connection status resets to idle. -/
def removeServer (st : MultiStoreState) (id : String) : MultiStoreState :=
  let serverList := st.serverList.filter (fun s => s.id ≠ id)
  if st.selectedServerId = some id then
    { serverList := serverList
    , selectedServerId := (serverList.head?).map Server.id
    , connectionStatus := .idle }
  else
    { st with serverList := serverList }

/-- The selectServer operation: when a record with the id exists, sets the
selection pointer to it and resets the connection status to idle; otherwise
leaves the state untouched. -/
def selectServer (st : MultiStoreState) (id : String) : MultiStoreState :=
  match st.serverList.find? (fun s => s.id = id) with
  | some _ => { st with selectedServerId := some id, connectionStatus := .idle }
  | none => st

/-- The testConnection operation of the multi-profile store. Returns the
boolean result, the final state, and the list of connection status values
assigned during the call, in program order: nothing when no server is
selected, otherwise loading followed by the final status. -/
def testConnection (st : MultiStoreState) (env : Env) :
    Bool × MultiStoreState × List HasuraConnectionStatus :=
  match getSelectedServer st with
  | none => (false, st, [])
  | some server =>
      match executeSQL server "SELECT 1" ExecuteSQLOptions.default env with
      | .err e =>
          (false, { st with connectionStatus := .error e }, [.loading, .error e])
      | .ok _ =>
          (true, { st with connectionStatus := .ready }, [.loading, .ready])

/-- The executeGraphQL method of the multi-profile store: short-circuits to
an Error result when no server is selected, otherwise delegates to the
standalone helper on the selected server. -/
def storeExecuteGraphQL (st : MultiStoreState) (query : String) (vars : Json)
    (env : Env) : QResult Json :=
  match getSelectedServer st with
  | none => .err ⟨"No server selected", false⟩
  | some server => executeGraphQL server query vars env

/-- The executeSQL method of the multi-profile store: short-circuits to an
Error result when no server is selected, otherwise delegates to the
standalone helper on the selected server. -/
def storeExecuteSQL (st : MultiStoreState) (sql : String)
    (options : ExecuteSQLOptions) (env : Env) : QResult HasuraQueryResult :=
  match getSelectedServer st with
  | none => .err ⟨"No server selected", false⟩
  | some server => executeSQL server sql options env

/-- The decoded persistence snapshot of the multi-profile store. -/
structure HasuraServerListJSON where
  serverList : List Server
  selectedServerId : Option String

/-- Record extraction for the snapshot schema: every element must be an
object whose id, name, url and password fields are strings; undeclared keys
are ignored. -/
def asServers : List Json → Option (List Server)
  | [] => some []
  | j :: rest =>
      match jsGet j "id", jsGet j "name", jsGet j "url", jsGet j "password" with
      | some (.str i), some (.str n), some (.str u), some (.str p) =>
          (asServers rest).map (fun ss => ⟨i, n, u, p⟩ :: ss)
      | _, _, _, _ => none

/-- Decode of the snapshot schema (parseHasuraserverListJSON): serverList must
be an array of server records and selectedServerId, when present, a string.
No relationship between the two is checked. -/
def decodeSnapshot (j : Json) : Except String HasuraServerListJSON :=
  match jsGet j "serverList" with
  | some (.arr xs) =>
      match asServers xs with
      | some servers =>
          match jsGet j "selectedServerId" with
          | none => .ok ⟨servers, none⟩
          | some (.str s) => .ok ⟨servers, some s⟩
          | some _ => .error "selectedServerId must be a string"
      | none => .error "serverList must be an array of server records"
  | _ => .error "serverList must be an array"

/-- The multi-profile store constructor: starts from the empty state and,
when a stored snapshot is supplied and decodes, hydrates serverList and
selectedServerId from it verbatim; a decode failure is caught and logged and
the store starts empty. The argument is the parsed JSON of the stored string,
or none when storage is absent, empty, or not parseable as JSON. -/
def createHasuraStore (saved : Option Json) : MultiStoreState :=
  match saved with
  | none => { serverList := [], selectedServerId := none, connectionStatus := .idle }
  | some j =>
      match decodeSnapshot j with
      | .error _ => { serverList := [], selectedServerId := none, connectionStatus := .idle }
      | .ok snap =>
          { serverList := snap.serverList
          , selectedServerId := snap.selectedServerId
          , connectionStatus := .idle }

namespace SingleV1

/-- The reactive state of the part_001 single-connection revision: server URL,
admin password and the connection status machine. -/
structure State where
  server : String
  adminPassword : String
  connectionStatus : HasuraConnectionStatus
deriving DecidableEq, Repr

/-- The updateConnection operation of part_001: only when either value
actually changes are the fields rewritten and the status reset to idle;
otherwise the call is a no-op. -/
def updateConnection (st : State) (nextServer nextAdminPassword : String) : State :=
  if nextServer ≠ st.server ∨ nextAdminPassword ≠ st.adminPassword then
    { server := nextServer, adminPassword := nextAdminPassword, connectionStatus := .idle }
  else st

/-- The clearConnection operation of part_001, defined as updating to the
empty pair. -/
def clearConnection (st : State) : State :=
  updateConnection st "" ""

/-- The request issued by the executeSQL closure of part_001: a POST to
server/v2/query with the admin-secret header, whose JSON body carries the
key status (not type) for the run_sql tag. -/
def sqlRequest (st : State) (sql : String) (options : ExecuteSQLOptions) : HttpRequest :=
  { url := st.server ++ "/v2/query"
  , method := "POST"
  , headers := [("Content-Type", "application/json"),
                ("x-hasura-admin-secret", st.adminPassword)]
  , body := .obj [("status", .str "run_sql"),
                  ("args", .obj [("source", .str "default"),
                                 ("sql", .str sql),
                                 ("cascade", .bool false),
                                 ("read_only", .bool (!options.allow))])] }

/-- The executeSQL closure of part_001: issues its request and runs the shared
response pipeline through errorBoundary; it touches no state fields. -/
def executeSQL (st : State) (sql : String) (options : ExecuteSQLOptions)
    (env : Env) : QResult HasuraQueryResult :=
  errorBoundary (sqlPipeline (env (sqlRequest st sql options)))

/-- The testConnection operation of part_001. Returns the boolean result, the
final state, and the list of connection status values assigned during the
call: nothing when server or password is empty (falsy), otherwise loading
followed by the final status. -/
def testConnection (st : State) (env : Env) :
    Bool × State × List HasuraConnectionStatus :=
  if st.server = "" ∨ st.adminPassword = "" then
    (false, st, [])
  else
    match executeSQL st "SELECT 1" ExecuteSQLOptions.default env with
    | .err e =>
        (false, { st with connectionStatus := .error e }, [.loading, .error e])
    | .ok _ =>
        (true, { st with connectionStatus := .ready }, [.loading, .ready])

end SingleV1

namespace SingleV2

/-- The observable reactive state of the later single-connection revision:
server URL, admin password, the isConnected and isLoading flags and the last
error message. -/
structure State where
  server : String
  adminPassword : String
  isConnected : Bool
  isLoading : Bool
  error : Option String
deriving DecidableEq, Repr

/-- The updateConnection operation of the later revision: rewrites both
fields unconditionally and always clears isConnected and the error. -/
def updateConnection (st : State) (nextServer nextAdminPassword : String) : State :=
  { st with server := nextServer, adminPassword := nextAdminPassword,
            isConnected := false, error := none }

/-- The clearConnection operation of the later revision: blanks both fields
and clears isConnected and the error. The additional removeItem call on the
persistence capability is an external effect outside the observable state. -/
def clearConnection (st : State) : State :=
  { st with server := "", adminPassword := "", isConnected := false, error := none }

/-- The request issued by the executeSQL closure of the later revision: a
POST to server/v2/query with the admin-secret header and the run_sql body. -/
def sqlRequest (st : State) (sql : String) (options : ExecuteSQLOptions) : HttpRequest :=
  { url := st.server ++ "/v2/query"
  , method := "POST"
  , headers := [("Content-Type", "application/json"),
                ("x-hasura-admin-secret", st.adminPassword)]
  , body := sqlRequestBody sql options }

/-- The executeSQL closure of the later revision: sets isLoading while the
request runs, runs the shared pipeline through errorBoundary, and records the
message of an Error result in the error field. Returns the result, the final
state, and the sequence of isLoading assignments made during the call in
program order (raised before the request, lowered after). -/
def executeSQL (st : State) (sql : String) (options : ExecuteSQLOptions)
    (env : Env) : QResult HasuraQueryResult × State × List Bool :=
  let result := errorBoundary (sqlPipeline (env (sqlRequest st sql options)))
  match result with
  | .err e => (result, { st with isLoading := false, error := some e.message }, [true, false])
  | .ok _ => (result, { st with isLoading := false, error := none }, [true, false])

/-- The testConnection operation of the later revision: when server or
password is empty it records a fixed error message and returns false;
otherwise it runs the SELECT 1 probe through its own executeSQL and sets
isConnected from the result. -/
def testConnection (st : State) (env : Env) : Bool × State :=
  if st.server = "" ∨ st.adminPassword = "" then
    (false, { st with error := some "Server URL and admin password are required" })
  else
    match executeSQL st "SELECT 1" ExecuteSQLOptions.default env with
    | (.err _, st1, _) => (false, { st1 with isConnected := false })
    | (.ok _, st1, _) => (true, { st1 with isConnected := true })

end SingleV2

/-- One call of the record-management interface of the multi-profile store,
for reasoning about arbitrary call sequences. The add constructor carries the
id produced by the generator for that call. -/
inductive StoreOp where
  | add (name url password freshId : String) : StoreOp
  | remove (id : String) : StoreOp
  | select (id : String) : StoreOp

/-- Application of one record-management call to a store state. -/
def applyOp (st : MultiStoreState) (op : StoreOp) : MultiStoreState :=
  match op with
  | .add name url password freshId => (addServer st name url password freshId).2
  | .remove id => removeServer st id
  | .select id => selectServer st id

/-- Application of a sequence of record-management calls, first call first. -/
def applyOps (st : MultiStoreState) (ops : List StoreOp) : MultiStoreState :=
  ops.foldl applyOp st

/-- Invariant I1: the selection pointer is unset or points at the id of some
record currently in the list. -/
def selectionInv (st : MultiStoreState) : Prop :=
  st.selectedServerId = none ∨ ∃ s ∈ st.serverList, st.selectedServerId = some s.id

/-- A concrete server record used by witness theorems. -/
def demoServer : Server := ⟨"s1", "Test", "http://h", "pw"⟩

/-- A concrete multi-profile state with the demo server selected. -/
def demoSelectedState : MultiStoreState := ⟨[demoServer], some "s1", .idle⟩

/-- An environment whose fetch promise always rejects with a network fault. -/
def rejectEnv : Env := fun _ => .reject ⟨"network down", true⟩

/-- An environment that always answers 403 with the access-denied SQL error
body of scenario B. -/
def accessDeniedEnv : Env := fun _ =>
  .response false (.obj [("error", .str "invalid secret"), ("path", .str "$"),
                         ("code", .str "access-denied")])

/-- An environment that always answers 200 with the TuplesOk body of
scenario E, whose first row is the header row. -/
def tuplesOkEnv : Env := fun _ =>
  .response true (.obj [("result_type", .str "TuplesOk"),
    ("result", .arr [.arr [.str "id", .str "name"], .arr [.str "1", .str "A"]])])

/-- C1: for every behaviour of the environment, the standalone executeGraphQL
and executeSQL operations and the testConnection method of the multi-profile
store return a tagged success/failure value (payload or Error, and a boolean
for testConnection); in particular any exception thrown inside the wrapped
operation, a fetch rejection or a response.json() rejection, surfaces as the
tagged Error carrying that fault and is never re-raised to the caller. -/
theorem query_operations_never_raise (server : Server) (query : String) (vars : Json)
    (sql : String) (options : ExecuteSQLOptions) (st : MultiStoreState) (env : Env) :
    ((∃ p, executeGraphQL server query vars env = .ok p) ∨
      (∃ e, executeGraphQL server query vars env = .err e))
    ∧ (∀ e, env (graphQLRequest server query vars) = .reject e →
        executeGraphQL server query vars env = .err e)
    ∧ (∀ ok e, env (graphQLRequest server query vars) = .jsonReject ok e →
        executeGraphQL server query vars env = .err e)
    ∧ ((∃ p, executeSQL server sql options env = .ok p) ∨
      (∃ e, executeSQL server sql options env = .err e))
    ∧ (∀ e, env (sqlRequest server sql options) = .reject e →
        executeSQL server sql options env = .err e)
    ∧ (∀ ok e, env (sqlRequest server sql options) = .jsonReject ok e →
        executeSQL server sql options env = .err e)
    ∧ ((testConnection st env).1 = false ∨ (testConnection st env).1 = true) := by
  refine ⟨?_, ?_, ?_, ?_, ?_, ?_, ?_⟩
  · cases hr : executeGraphQL server query vars env with
    | ok p => exact Or.inl ⟨p, rfl⟩
    | err e => exact Or.inr ⟨e, rfl⟩
  · intro e h
    simp [executeGraphQL, executeGraphQLBody, h, errorBoundary]
  · intro ok e h
    simp [executeGraphQL, executeGraphQLBody, h, errorBoundary]
  · cases hr : executeSQL server sql options env with
    | ok p => exact Or.inl ⟨p, rfl⟩
    | err e => exact Or.inr ⟨e, rfl⟩
  · intro e h
    simp [executeSQL, sqlPipeline, h, errorBoundary]
  · intro ok e h
    simp [executeSQL, sqlPipeline, h, errorBoundary]
  · exact (Bool.eq_false_or_eq_true _).symm

/-- Witness for C1: at the concrete rejecting environment both operations
return the tagged network fault rather than raising it. -/
theorem query_operations_never_raise_witness :
    executeGraphQL demoServer "query { x }" (Json.obj []) rejectEnv =
      .err ⟨"network down", true⟩ ∧
    executeSQL demoServer "SELECT 1" ExecuteSQLOptions.default rejectEnv =
      .err ⟨"network down", true⟩ := by
  have h := query_operations_never_raise demoServer "query { x }" (Json.obj [])
    "SELECT 1" ExecuteSQLOptions.default demoSelectedState rejectEnv
  exact ⟨h.2.1 ⟨"network down", true⟩ rfl, h.2.2.2.2.1 ⟨"network down", true⟩ rfl⟩

/-- Counterexample for C2: in the later single-connection revision, the
unconfigured testConnection call returns false but does change the store
state, recording a fixed error message, so it does not hold that no state
transition is performed. -/
theorem testConnection_unconfigured_counterexample :
    (SingleV2.testConnection ⟨"", "", false, false, none⟩ rejectEnv).1 = false ∧
    (SingleV2.testConnection ⟨"", "", false, false, none⟩ rejectEnv).2 ≠
      (⟨"", "", false, false, none⟩ : SingleV2.State) ∧
    (SingleV2.testConnection ⟨"", "", false, false, none⟩ rejectEnv).2.error =
      some "Server URL and admin password are required" := by
  refine ⟨rfl, ?_, rfl⟩
  decide

/-- C2 (amended): in the multi-profile store and the part_001 revision,
testConnection with no selected record (or empty endpoint/secret) returns
false immediately with no state transition; otherwise it assigns loading,
issues the SELECT 1 probe through executeSQL, and ends ready returning true
on success or error(fault) returning false on failure, storing exactly the
probe fault. In the later single-connection revision the unconfigured path
returns false but additionally records the fixed error message; its
configured path issues the same SELECT 1 probe through its own executeSQL,
which raises isLoading during the request and lowers it after, and ends with
isConnected reflecting the probe result and returned as the boolean, the
probe fault message stored in error on failure and error cleared on
success. -/
theorem testConnection_spec (st : MultiStoreState) (st1 : SingleV1.State)
    (st2 : SingleV2.State) (env : Env) :
    (getSelectedServer st = none → testConnection st env = (false, st, []))
    ∧ (∀ server, getSelectedServer st = some server →
        (∀ e, executeSQL server "SELECT 1" ExecuteSQLOptions.default env = .err e →
          testConnection st env =
            (false, { st with connectionStatus := .error e }, [.loading, .error e]))
        ∧ (∀ r, executeSQL server "SELECT 1" ExecuteSQLOptions.default env = .ok r →
          testConnection st env =
            (true, { st with connectionStatus := .ready }, [.loading, .ready])))
    ∧ ((st1.server = "" ∨ st1.adminPassword = "") →
        SingleV1.testConnection st1 env = (false, st1, []))
    ∧ (¬(st1.server = "" ∨ st1.adminPassword = "") →
        (∀ e, SingleV1.executeSQL st1 "SELECT 1" ExecuteSQLOptions.default env = .err e →
          SingleV1.testConnection st1 env =
            (false, { st1 with connectionStatus := .error e }, [.loading, .error e]))
        ∧ (∀ r, SingleV1.executeSQL st1 "SELECT 1" ExecuteSQLOptions.default env = .ok r →
          SingleV1.testConnection st1 env =
            (true, { st1 with connectionStatus := .ready }, [.loading, .ready])))
    ∧ ((st2.server = "" ∨ st2.adminPassword = "") →
        SingleV2.testConnection st2 env =
          (false, { st2 with error := some "Server URL and admin password are required" }))
    ∧ (¬(st2.server = "" ∨ st2.adminPassword = "") →
        (∀ e, (SingleV2.executeSQL st2 "SELECT 1" ExecuteSQLOptions.default env).1 = .err e →
          SingleV2.testConnection st2 env =
            (false,
              { st2 with
                  isLoading := false, isConnected := false, error := some e.message }))
        ∧ (∀ r, (SingleV2.executeSQL st2 "SELECT 1" ExecuteSQLOptions.default env).1 = .ok r →
          SingleV2.testConnection st2 env =
            (true, { st2 with isLoading := false, isConnected := true, error := none })))
    ∧ (SingleV2.executeSQL st2 "SELECT 1" ExecuteSQLOptions.default env).2.2 =
        [true, false] := by
  refine ⟨?_, ?_, ?_, ?_, ?_, ?_, ?_⟩
  · intro h
    simp [testConnection, h]
  · intro server h
    constructor
    · intro e he
      simp [testConnection, h, he]
    · intro r hr
      simp [testConnection, h, hr]
  · intro h
    simp [SingleV1.testConnection, h]
  · intro h
    constructor
    · intro e he
      simp [SingleV1.testConnection, h, he]
    · intro r hr
      simp [SingleV1.testConnection, h, hr]
  · intro h
    simp [SingleV2.testConnection, h]
  · intro hne
    constructor
    · intro e he
      cases hr : errorBoundary (sqlPipeline (env (SingleV2.sqlRequest st2 "SELECT 1"
          ExecuteSQLOptions.default))) with
      | err e2 =>
          simp only [SingleV2.executeSQL, hr] at he
          injection he with h2
          subst h2
          simp [SingleV2.testConnection, if_neg hne, SingleV2.executeSQL, hr]
      | ok r2 =>
          simp [SingleV2.executeSQL, hr] at he
    · intro r hr0
      cases hr : errorBoundary (sqlPipeline (env (SingleV2.sqlRequest st2 "SELECT 1"
          ExecuteSQLOptions.default))) with
      | err e2 =>
          simp [SingleV2.executeSQL, hr] at hr0
      | ok r2 =>
          simp [SingleV2.testConnection, if_neg hne, SingleV2.executeSQL, hr]
  · cases hr : errorBoundary (sqlPipeline (env (SingleV2.sqlRequest st2 "SELECT 1"
        ExecuteSQLOptions.default))) <;> simp [SingleV2.executeSQL, hr]

/-- Witness for C2: on the concrete selected store and the 403 access-denied
environment of scenario B, testConnection returns false and stores exactly
the invalid-secret fault produced by the probe, in the multi-profile store
and in the later single-connection revision alike. -/
theorem testConnection_spec_witness :
    testConnection demoSelectedState accessDeniedEnv =
      (false, { demoSelectedState with connectionStatus := .error ⟨"invalid secret", false⟩ },
        [.loading, .error ⟨"invalid secret", false⟩])
    ∧ SingleV2.testConnection ⟨"http://h", "pw", false, false, none⟩ accessDeniedEnv =
        (false, ⟨"http://h", "pw", false, false, some "invalid secret"⟩) := by
  have h := testConnection_spec demoSelectedState ⟨"http://h", "pw", .idle⟩
    ⟨"http://h", "pw", false, false, none⟩ accessDeniedEnv
  exact ⟨(h.2.1 demoServer rfl).1 ⟨"invalid secret", false⟩ rfl,
    (h.2.2.2.2.2.1 (by decide)).1 ⟨"invalid secret", false⟩ rfl⟩

/-- An environment whose GraphQL response carries one error whose message
field is present but the empty string. -/
def emptyMessageEnv : Env := fun _ =>
  .response true (.obj [("errors", .arr [.obj [("message", .str "")]])])

/-- Counterexample for C3: against a response whose first error carries the
present-but-empty message field, the store returns the generic fallback
message, not the message field value (the code tests the field for JavaScript
truthiness, not for presence). -/
theorem executeGraphQL_empty_message_counterexample :
    storeExecuteGraphQL demoSelectedState "query { x }" (Json.obj []) emptyMessageEnv =
      .err ⟨"GraphQL query failed", false⟩ ∧
    jsGet (.obj [("message", .str "")]) "message" = some (.str "") ∧
    "GraphQL query failed" ≠ "" := by
  refine ⟨rfl, rfl, by decide⟩

/-- Evaluation of gqlHasErrors on a non-null parsed body: the access does
not throw and the protected length test on the errors field decides. -/
theorem gqlHasErrors_of_ne_null (body : Json) (h : body ≠ .null) :
    gqlHasErrors body = .ok (match jsGet body "errors" with
      | some e => jsLengthTruthy e
      | none => false) := by
  cases body with
  | null => exact absurd rfl h
  | bool b => rfl
  | num n => rfl
  | str t => rfl
  | arr xs => rfl
  | obj fields => rfl

/-- C3 (amended): executeGraphQL with no selected record fails with the
message No server selected, independent of the environment; otherwise, when
the response JSON body is null the unprotected errors access throws a
TypeError that surfaces as the failure result; when the body carries a
non-empty errors array the result is a failure whose message is the first
error's message field, falling back to the generic message when that field is
missing or empty; when a non-null body carries no errors field, or an empty
errors array, the decoded response object is returned as the success
payload. -/
theorem storeExecuteGraphQL_spec (st : MultiStoreState) (query : String)
    (vars : Json) (env : Env) :
    (getSelectedServer st = none →
      storeExecuteGraphQL st query vars env = .err ⟨"No server selected", false⟩)
    ∧ (∀ server, getSelectedServer st = some server →
        ∀ ok body, env (graphQLRequest server query vars) = .response ok body →
          (body = .null →
            storeExecuteGraphQL st query vars env =
              .err ⟨"Cannot read properties of null (reading errors)", true⟩)
          ∧ (∀ e0 rest, jsGet body "errors" = some (.arr (e0 :: rest)) →
            (∀ s, jsGet e0 "message" = some (.str s) → s ≠ "" →
              storeExecuteGraphQL st query vars env = .err ⟨s, false⟩)
            ∧ (jsGet e0 "message" = some (.str "") →
              storeExecuteGraphQL st query vars env = .err ⟨"GraphQL query failed", false⟩)
            ∧ (jsGet e0 "message" = none →
              storeExecuteGraphQL st query vars env = .err ⟨"GraphQL query failed", false⟩))
          ∧ (body ≠ .null → jsGet body "errors" = none →
              storeExecuteGraphQL st query vars env = .ok body)
          ∧ (jsGet body "errors" = some (.arr []) →
              storeExecuteGraphQL st query vars env = .ok body)) := by
  constructor
  · intro h
    simp [storeExecuteGraphQL, h]
  · intro server hsel ok body hresp
    refine ⟨?_, ?_, ?_, ?_⟩
    · intro hb
      subst hb
      simp [storeExecuteGraphQL, hsel, executeGraphQL, executeGraphQLBody, hresp,
        errorBoundary, gqlHasErrors]
    · intro e0 rest herr
      have hnn : body ≠ .null := by
        intro hb
        rw [hb] at herr
        simp [jsGet] at herr
      refine ⟨?_, ?_, ?_⟩
      · intro s hmsg hs
        simp [storeExecuteGraphQL, hsel, executeGraphQL, executeGraphQLBody, hresp,
          errorBoundary, gqlHasErrors_of_ne_null body hnn, herr, jsLengthTruthy,
          gqlErrorMessage, jsIndex0, hmsg, jsTruthy, hs, jsToString]
      · intro hmsg
        simp [storeExecuteGraphQL, hsel, executeGraphQL, executeGraphQLBody, hresp,
          errorBoundary, gqlHasErrors_of_ne_null body hnn, herr, jsLengthTruthy,
          gqlErrorMessage, jsIndex0, hmsg, jsTruthy]
      · intro hmsg
        simp [storeExecuteGraphQL, hsel, executeGraphQL, executeGraphQLBody, hresp,
          errorBoundary, gqlHasErrors_of_ne_null body hnn, herr, jsLengthTruthy,
          gqlErrorMessage, jsIndex0, hmsg]
    · intro hnn herr
      simp [storeExecuteGraphQL, hsel, executeGraphQL, executeGraphQLBody, hresp,
        errorBoundary, gqlHasErrors_of_ne_null body hnn, herr]
    · intro herr
      have hnn : body ≠ .null := by
        intro hb
        rw [hb] at herr
        simp [jsGet] at herr
      simp [storeExecuteGraphQL, hsel, executeGraphQL, executeGraphQLBody, hresp,
        errorBoundary, gqlHasErrors_of_ne_null body hnn, herr, jsLengthTruthy]

/-- An environment producing the scenario C response: one error whose message
names the missing field. -/
def fieldErrorEnv : Env := fun _ =>
  .response true (.obj [("errors", .arr [.obj [("message", .str "Field does not exist")]])])

/-- An environment whose response parses to a null JSON body. -/
def nullBodyEnv : Env := fun _ => .response true .null

/-- Witness for C3: with the demo server selected and the scenario C
environment, the failure message is the first error's message field; a null
response body surfaces the thrown TypeError as the failure; with no server
selected the call short-circuits. -/
theorem storeExecuteGraphQL_spec_witness :
    storeExecuteGraphQL demoSelectedState "query { x }" (Json.obj []) fieldErrorEnv =
      .err ⟨"Field does not exist", false⟩ ∧
    storeExecuteGraphQL demoSelectedState "query { x }" (Json.obj []) nullBodyEnv =
      .err ⟨"Cannot read properties of null (reading errors)", true⟩ ∧
    storeExecuteGraphQL ⟨[], none, .idle⟩ "query { x }" (Json.obj []) fieldErrorEnv =
      .err ⟨"No server selected", false⟩ := by
  refine ⟨?_, ?_, ?_⟩
  · exact (((storeExecuteGraphQL_spec demoSelectedState "query { x }" (Json.obj [])
      fieldErrorEnv).2 demoServer rfl true _ rfl).2.1 _ [] rfl).1 "Field does not exist" rfl
      (by decide)
  · exact ((storeExecuteGraphQL_spec demoSelectedState "query { x }" (Json.obj [])
      nullBodyEnv).2 demoServer rfl true .null rfl).1 rfl
  · exact (storeExecuteGraphQL_spec ⟨[], none, .idle⟩ "query { x }" (Json.obj [])
      fieldErrorEnv).1 rfl

/-- Row extraction is the inverse of wrapping each row as a JSON array, so a
decoded result keeps every row verbatim. -/
theorem asRows_map_arr (rows : List (List Json)) :
    asRows (rows.map Json.arr) = some rows := by
  induction rows with
  | nil => rfl
  | cons r rs ih => simp [asRows, ih]

/-- C4: on an HTTP non-success status, an error body failing the strict error
schema yields a TypeError (validation fault) carrying the schema-violation
summary, while a successfully decoded error body yields an Error
(gateway-sql fault) carrying its error field or the generic fallback when
that field is empty; on HTTP success a body failing the strict success schema
yields a TypeError, and a decoded body is returned as the payload with the
full row sequence, header row included, verbatim. -/
theorem executeSQL_decode_spec (server : Server) (sql : String)
    (options : ExecuteSQLOptions) (env : Env) (body : Json) :
    (env (sqlRequest server sql options) = .response false body →
      (∀ s, decodeHasuraQueryError body = .error s →
        executeSQL server sql options env = .err ⟨s, true⟩)
      ∧ (∀ eb, decodeHasuraQueryError body = .ok eb →
        executeSQL server sql options env =
          .err ⟨if eb.error = "" then "SQL query failed" else eb.error, false⟩))
    ∧ (env (sqlRequest server sql options) = .response true body →
      (∀ s, decodeHasuraQueryResult body = .error s →
        executeSQL server sql options env = .err ⟨s, true⟩)
      ∧ (∀ r, decodeHasuraQueryResult body = .ok r →
        executeSQL server sql options env = .ok r))
    ∧ (∀ rows : List (List Json),
        decodeHasuraQueryResult (.obj [("result_type", .str "TuplesOk"),
          ("result", .arr (rows.map Json.arr))]) = .ok ⟨"TuplesOk", rows⟩) := by
  refine ⟨?_, ?_, ?_⟩
  · intro hresp
    constructor
    · intro s hs
      simp [executeSQL, sqlPipeline, hresp, errorBoundary, hs]
    · intro eb heb
      simp [executeSQL, sqlPipeline, hresp, errorBoundary, heb]
  · intro hresp
    constructor
    · intro s hs
      simp [executeSQL, sqlPipeline, hresp, errorBoundary, hs]
    · intro r hr
      simp [executeSQL, sqlPipeline, hresp, errorBoundary, hr]
  · intro rows
    simp [decodeHasuraQueryResult, jsGet, List.find?, asRows_map_arr]

/-- Witness for C4: scenario E returns the two rows with the header row
first, verbatim, and the scenario B 403 body yields the gateway fault
carrying its error field. -/
theorem executeSQL_decode_spec_witness :
    executeSQL demoServer "SELECT 1" ExecuteSQLOptions.default tuplesOkEnv =
      .ok ⟨"TuplesOk", [[.str "id", .str "name"], [.str "1", .str "A"]]⟩ ∧
    executeSQL demoServer "SELECT 1" ExecuteSQLOptions.default accessDeniedEnv =
      .err ⟨"invalid secret", false⟩ := by
  constructor
  · exact ((executeSQL_decode_spec demoServer "SELECT 1" ExecuteSQLOptions.default
      tuplesOkEnv (.obj [("result_type", .str "TuplesOk"),
        ("result", .arr [.arr [.str "id", .str "name"],
          .arr [.str "1", .str "A"]])])).2.1 rfl).2 _ rfl
  · have h := ((executeSQL_decode_spec demoServer "SELECT 1" ExecuteSQLOptions.default
      accessDeniedEnv (.obj [("error", .str "invalid secret"), ("path", .str "$"),
        ("code", .str "access-denied")])).1 rfl).2 ⟨"invalid secret", "$", "access-denied"⟩ rfl
    simpa using h

/-- C5: every executeSQL call in the hasura.svelte.ts revisions issues a POST
to endpoint/v2/query with the admin-secret header and exactly the run_sql
body, whose read_only flag is true whenever allowMutations is unset or
false, and consults the environment only at that request; but the part_001
revision sends the body key status instead of type for the run_sql tag, so
its request body carries no type field at all. -/
theorem sqlRequest_shape (server : Server) (sql : String)
    (options : ExecuteSQLOptions) (st1 : SingleV1.State) (env : Env) :
    (sqlRequest server sql options).method = "POST"
    ∧ (sqlRequest server sql options).url = server.url ++ "/v2/query"
    ∧ (sqlRequest server sql options).headers =
        [("Content-Type", "application/json"),
         ("x-hasura-admin-secret", server.password)]
    ∧ (sqlRequest server sql options).body =
        .obj [("type", .str "run_sql"),
              ("args", .obj [("source", .str "default"), ("sql", .str sql),
                             ("cascade", .bool false),
                             ("read_only", .bool (!options.allow))])]
    ∧ ((!options.allow) = true ↔
        (options.allowMutations = none ∨ options.allowMutations = some false))
    ∧ executeSQL server sql options env =
        errorBoundary (sqlPipeline (env (sqlRequest server sql options)))
    ∧ jsGet (SingleV1.sqlRequest st1 sql options).body "type" = none
    ∧ jsGet (SingleV1.sqlRequest st1 sql options).body "status" = some (.str "run_sql") := by
  refine ⟨rfl, rfl, rfl, rfl, ?_, rfl, ?_, ?_⟩
  · cases h : options.allowMutations with
    | none => simp [ExecuteSQLOptions.allow, h]
    | some b => cases b <;> simp [ExecuteSQLOptions.allow, h]
  · simp [SingleV1.sqlRequest, jsGet, List.find?]
  · simp [SingleV1.sqlRequest, jsGet, List.find?]

/-- C6: addServer always succeeds, appends exactly one record carrying the
freshly generated id to the end of the list, returns that id, leaves the
connection status alone, and auto-selects the new record exactly when the
list was empty before the call; freshness of the generated id (it matches no
existing record and not the current selection pointer) gives that the id
occurs exactly once in the resulting list. -/
theorem addServer_spec (st : MultiStoreState) (name url password freshId : String)
    (hfresh : freshId ∉ st.serverList.map Server.id)
    (hsel : st.selectedServerId ≠ some freshId) :
    (addServer st name url password freshId).1 = freshId
    ∧ (addServer st name url password freshId).2.serverList =
        st.serverList ++ [⟨freshId, name, url, password⟩]
    ∧ ((addServer st name url password freshId).2.serverList.filter
        (fun s => s.id = freshId)).length = 1
    ∧ ((addServer st name url password freshId).2.selectedServerId = some freshId ↔
        st.serverList = [])
    ∧ (st.serverList ≠ [] →
        (addServer st name url password freshId).2.selectedServerId = st.selectedServerId)
    ∧ (addServer st name url password freshId).2.connectionStatus = st.connectionStatus := by
  have hnil : st.serverList.filter (fun s => s.id = freshId) = [] := by
    apply List.filter_eq_nil_iff.2
    intro s hs
    simp only [decide_eq_true_eq]
    intro hid
    exact hfresh (hid ▸ List.mem_map_of_mem Server.id hs)
  refine ⟨rfl, rfl, ?_, ?_, ?_, rfl⟩
  · simp [addServer, List.filter_append, hnil]
  · constructor
    · intro h
      by_contra hne
      have hlen : (st.serverList ++ [(⟨freshId, name, url, password⟩ : Server)]).length ≠ 1 := by
        simp only [List.length_append, List.length_singleton]
        have : st.serverList.length ≠ 0 := fun h0 => hne (List.length_eq_zero.1 h0)
        omega
      simp only [addServer, if_neg hlen] at h
      exact hsel h
    · intro h
      simp [addServer, h]
  · intro hne
    simp only [addServer]
    rw [if_neg]
    simp only [List.length_append, List.length_singleton]
    have : st.serverList.length ≠ 0 := fun h0 => hne (List.length_eq_zero.1 h0)
    omega

/-- Witness for C6: adding a record to the empty store returns the fresh id,
yields a one-record list and auto-selects the new record. -/
theorem addServer_spec_witness :
    (addServer ⟨[], none, .idle⟩ "S1" "http://h" "pw" "u1").1 = "u1"
    ∧ (addServer ⟨[], none, .idle⟩ "S1" "http://h" "pw" "u1").2.serverList =
        [⟨"u1", "S1", "http://h", "pw"⟩]
    ∧ (addServer ⟨[], none, .idle⟩ "S1" "http://h" "pw" "u1").2.selectedServerId =
        some "u1" := by
  have h := addServer_spec ⟨[], none, .idle⟩ "S1" "http://h" "pw" "u1"
    (by decide) (by decide)
  exact ⟨h.1, h.2.1, h.2.2.2.1.2 rfl⟩

/-- One record-management call preserves the selection invariant. -/
theorem selectionInv_applyOp (st : MultiStoreState) (op : StoreOp)
    (h : selectionInv st) : selectionInv (applyOp st op) := by
  cases op with
  | add name url password freshId =>
      simp only [applyOp, addServer, selectionInv]
      by_cases hlen :
          (st.serverList ++ [(⟨freshId, name, url, password⟩ : Server)]).length = 1
      · rw [if_pos hlen]
        right
        exact ⟨⟨freshId, name, url, password⟩,
          List.mem_append.2 (Or.inr (List.mem_singleton.2 rfl)), rfl⟩
      · rw [if_neg hlen]
        rcases h with hnone | ⟨s, hs, hsel⟩
        · left; exact hnone
        · right; exact ⟨s, List.mem_append.2 (Or.inl hs), hsel⟩
  | remove id =>
      simp only [applyOp, removeServer]
      by_cases heq : st.selectedServerId = some id
      · simp only [if_pos heq]
        cases hl : st.serverList.filter (fun s => s.id ≠ id) with
        | nil => left; simp
        | cons x xs =>
            right
            exact ⟨x, by simp [hl], by simp [hl]⟩
      · simp only [if_neg heq]
        rcases h with hnone | ⟨s, hs, hsel⟩
        · left; exact hnone
        · right
          refine ⟨s, ?_, hsel⟩
          apply List.mem_filter.2
          refine ⟨hs, ?_⟩
          have hid : s.id ≠ id := by
            intro hid
            exact heq (hsel.trans (by rw [hid]))
          simp [hid]
  | select id =>
      simp only [applyOp, selectServer]
      cases hf : st.serverList.find? (fun s => s.id = id) with
      | none => exact h
      | some s =>
          right
          have hmem := List.mem_of_find?_eq_some hf
          have hid : s.id = id := by
            have := List.find?_some hf
            simpa using this
          exact ⟨s, hmem, by simp [hid]⟩

/-- C7: after every call of any finite sequence of addServer, removeServer
and selectServer calls applied to the multi-profile store constructed empty,
the selection pointer is either unset or equal to the id of some record
currently in the list. -/
theorem selection_invariant_sequences (ops : List StoreOp) :
    selectionInv (applyOps (createHasuraStore none) ops) := by
  suffices h : ∀ st, selectionInv st → selectionInv (applyOps st ops) from
    h _ (Or.inl rfl)
  induction ops with
  | nil => intro st h; exact h
  | cons op rest ih =>
      intro st h
      exact ih _ (selectionInv_applyOp st op h)

/-- A concrete multi-profile state whose selected server has already tested
healthy, used to exhibit the reset on re-selection. -/
def readyState : MultiStoreState := ⟨[⟨"a", "N", "http://h", "pw"⟩], some "a", .ready⟩

/-- Counterexample for C8: re-selecting the id that is already selected does
reset the connection status to idle, so the reset is not restricted to actual
selection changes. -/
theorem selectServer_same_id_counterexample :
    readyState.selectedServerId = some "a"
    ∧ readyState.connectionStatus = .ready
    ∧ (selectServer readyState "a").selectedServerId = some "a"
    ∧ (selectServer readyState "a").connectionStatus = .idle := by
  refine ⟨rfl, rfl, ?_, ?_⟩ <;> decide

/-- C8 (amended): selectServer with an id matching no record leaves the
whole state untouched; with an id matching some record it sets the selection
to that id and always resets the connection status to idle, including when
the id already equals the current selection. -/
theorem selectServer_spec (st : MultiStoreState) (id : String) :
    ((¬∃ s ∈ st.serverList, s.id = id) → selectServer st id = st)
    ∧ ((∃ s ∈ st.serverList, s.id = id) →
        selectServer st id =
          { st with selectedServerId := some id, connectionStatus := .idle }) := by
  constructor
  · intro h
    have hf : st.serverList.find? (fun s => s.id = id) = none := by
      apply List.find?_eq_none.2
      intro s hs
      simp only [decide_eq_true_eq]
      exact fun hid => h ⟨s, hs, hid⟩
    simp [selectServer, hf]
  · intro h
    rcases h with ⟨s, hs, hid⟩
    have hsome : (st.serverList.find? (fun x => x.id = id)).isSome := by
      apply List.find?_isSome.2
      exact ⟨s, hs, by simp [hid]⟩
    cases hf : st.serverList.find? (fun x => x.id = id) with
    | none => rw [hf] at hsome; simp at hsome
    | some t => simp [selectServer, hf]

/-- Witness for C8: selecting an absent id on the concrete ready state is a
no-op, and selecting the present id a sets the selection and resets the
status to idle. -/
theorem selectServer_spec_witness :
    selectServer readyState "zz" = readyState
    ∧ selectServer readyState "a" =
        { readyState with selectedServerId := some "a", connectionStatus := .idle } := by
  constructor
  · exact (selectServer_spec readyState "zz").1 (by decide)
  · exact (selectServer_spec readyState "a").2 ⟨⟨"a", "N", "http://h", "pw"⟩, by decide, rfl⟩

/-- Counterexample for C9: in the later single-connection revision, calling
updateConnection with both arguments equal to the current values is not a
no-op: it clears the isConnected flag. -/
theorem updateConnection_same_values_counterexample :
    SingleV2.updateConnection ⟨"http://h", "pw", true, false, none⟩ "http://h" "pw" ≠
      (⟨"http://h", "pw", true, false, none⟩ : SingleV2.State)
    ∧ SingleV2.updateConnection ⟨"http://h", "pw", true, false, none⟩ "http://h" "pw" =
      (⟨"http://h", "pw", false, false, none⟩ : SingleV2.State) := by
  exact ⟨by decide, rfl⟩

/-- C9 (amended): in the part_001 revision updateConnection with both
arguments equal to the current values is a no-op and clearConnection yields
exactly the state of updateConnection applied to two empty strings; in the
later revision clearConnection still equals updateConnection on two empty
strings over the observable store fields, but updateConnection with unchanged
arguments additionally clears isConnected and the error, so it is a no-op
only when both were already clear. -/
theorem updateConnection_clearConnection_spec :
    (∀ st : SingleV1.State,
      SingleV1.updateConnection st st.server st.adminPassword = st)
    ∧ (∀ st : SingleV1.State,
      SingleV1.clearConnection st = SingleV1.updateConnection st "" "")
    ∧ (∀ st : SingleV2.State,
      SingleV2.clearConnection st = SingleV2.updateConnection st "" "")
    ∧ (∀ st : SingleV2.State,
      SingleV2.updateConnection st st.server st.adminPassword =
        { st with isConnected := false, error := none })
    ∧ (∀ st : SingleV2.State, st.isConnected = false → st.error = none →
      SingleV2.updateConnection st st.server st.adminPassword = st) := by
  refine ⟨?_, ?_, ?_, ?_, ?_⟩
  · intro st
    simp [SingleV1.updateConnection]
  · intro st
    rfl
  · intro st
    rfl
  · intro st
    rfl
  · intro st hconn herr
    cases st
    simp_all [SingleV2.updateConnection]

/-- Witness for C9: on a concrete disconnected state with no error, the
same-value update of the later revision is a no-op. -/
theorem updateConnection_clearConnection_spec_witness :
    SingleV2.updateConnection ⟨"http://h", "pw", false, false, none⟩ "http://h" "pw" =
      (⟨"http://h", "pw", false, false, none⟩ : SingleV2.State) :=
  updateConnection_clearConnection_spec.2.2.2.2
    ⟨"http://h", "pw", false, false, none⟩ rfl rfl

/-- A concrete stored snapshot whose selectedServerId zz matches no record in
its serverList. -/
def demoSnapshotJson : Json :=
  .obj [("serverList", .arr [.obj [("id", .str "s1"), ("name", .str "A"),
    ("url", .str "http://h"), ("password", .str "p")]]),
    ("selectedServerId", .str "zz")]

/-- C10: the constructor hydrates a decoded snapshot verbatim, without
checking the selection invariant: a snapshot whose selectedServerId matches
no record id leaves the store with that dangling selection; then the
selected-server getter returns undefined, both query methods return the
No server selected failure for every environment (so without any network
call), and testConnection returns false with no state transition. -/
theorem hydration_dangling_selection_spec (j : Json) (snap : HasuraServerListJSON)
    (hdec : decodeSnapshot j = .ok snap) (sid : String)
    (hsid : snap.selectedServerId = some sid)
    (hdangling : ∀ s ∈ snap.serverList, s.id ≠ sid) :
    (createHasuraStore (some j)).serverList = snap.serverList
    ∧ (createHasuraStore (some j)).selectedServerId = some sid
    ∧ getSelectedServer (createHasuraStore (some j)) = none
    ∧ (∀ query vars env, storeExecuteGraphQL (createHasuraStore (some j)) query vars env =
        .err ⟨"No server selected", false⟩)
    ∧ (∀ sql options env, storeExecuteSQL (createHasuraStore (some j)) sql options env =
        .err ⟨"No server selected", false⟩)
    ∧ (∀ env, testConnection (createHasuraStore (some j)) env =
        (false, createHasuraStore (some j), [])) := by
  have hst : createHasuraStore (some j) =
      ⟨snap.serverList, snap.selectedServerId, .idle⟩ := by
    simp [createHasuraStore, hdec]
  have hget : getSelectedServer (createHasuraStore (some j)) = none := by
    rw [hst, hsid]
    simp only [getSelectedServer]
    by_cases hempty : sid = ""
    · simp [hempty]
    · rw [if_neg hempty]
      apply List.find?_eq_none.2
      intro s hs
      simp only [decide_eq_true_eq]
      exact hdangling s hs
  refine ⟨by rw [hst], by rw [hst, hsid], hget, ?_, ?_, ?_⟩
  · intro query vars env
    simp [storeExecuteGraphQL, hget]
  · intro sql options env
    simp [storeExecuteSQL, hget]
  · intro env
    simp [testConnection, hget]

/-- Witness for C10: the concrete dangling snapshot hydrates to a store that
keeps selection zz, exposes no selected server, and short-circuits both the
GraphQL query and the connection test. -/
theorem hydration_dangling_selection_spec_witness :
    (createHasuraStore (some demoSnapshotJson)).selectedServerId = some "zz"
    ∧ getSelectedServer (createHasuraStore (some demoSnapshotJson)) = none
    ∧ storeExecuteGraphQL (createHasuraStore (some demoSnapshotJson)) "query { x }"
        (.obj []) rejectEnv = .err ⟨"No server selected", false⟩
    ∧ testConnection (createHasuraStore (some demoSnapshotJson)) rejectEnv =
        (false, createHasuraStore (some demoSnapshotJson), []) := by
  have h := hydration_dangling_selection_spec demoSnapshotJson
    ⟨[⟨"s1", "A", "http://h", "p"⟩], some "zz"⟩ rfl "zz" rfl (by decide)
  exact ⟨h.2.1, h.2.2.1, h.2.2.2.1 _ _ _, h.2.2.2.2.2 _⟩
